import Mathlib

/-!
Verification of the rend3 per-frame orchestrator against its specification.

The development shallowly embeds the three source files
`src/rend3/src/util/acquire.rs`, `src/rend3/src/util/output.rs` and
`src/rend3/src/renderer/render.rs`: pure control flow becomes Lean
functions, mutable state becomes explicit state passing, panics become a
`PanicOr` result, and opaque external handles (surfaces, textures, views)
become natural numbers.
-/

namespace Rend3

/-! ## Frame acquisition service (acquire.rs) -/

/-- Opaque handle standing for a `wgpu::SurfaceTexture`. -/
abbrev SurfaceTex := Nat

/-- Embedding of `wgpu::SurfaceError`, the error type returned by
`Surface::get_current_texture`. -/
inductive SurfaceError
  | timeout
  | outdated
  | lost
  | outOfMemory
  deriving DecidableEq

/-- Result of one native `surface.get_current_texture()` call
(`Result<SurfaceTexture, SurfaceError>`). -/
inductive AcqResult
  | ok (t : SurfaceTex)
  | err (e : SurfaceError)
  deriving DecidableEq

/-- Embedding of the `for _ in 0..10` retry loop body of
`AcquireThread::thread_loop` (acquire.rs lines 36-47), run over the list of
native outcomes the remaining iterations would see.  The accumulator is the
mutable `retrieved_texture`.  An `Ok` frame stores the success and breaks;
a `Timeout` error leaves the accumulator unchanged and continues; any other
error overwrites the accumulator and continues.  Returns the final
`retrieved_texture` together with the number of native calls made. -/
def acquireLoop : List AcqResult → Option AcqResult → Option AcqResult × Nat
  | [], r => (r, 0)
  | o :: rest, r =>
    match o with
    | .ok t => (some (.ok t), 1)
    | .err e =>
      if e = SurfaceError.timeout then
        let p := acquireLoop rest r
        (p.1, p.2 + 1)
      else
        let p := acquireLoop rest (some (.err e))
        (p.1, p.2 + 1)

/-- Result `thread_loop` forwards for one acquire request (acquire.rs line
49): run the retry loop over the outcomes of the (at most) 10 attempts with
`retrieved_texture` initially `None`, then `unwrap_or(Err(Timeout))`.
`outcomes i` is what the native call would return on attempt `i`. -/
def threadResult (outcomes : Nat → AcqResult) : AcqResult :=
  ((acquireLoop ((List.range 10).map outcomes) none).1).getD (.err .timeout)

/-- Number of native `get_current_texture` calls `thread_loop` makes for one
request against the given outcome source. -/
def threadAttempts (outcomes : Nat → AcqResult) : Nat :=
  (acquireLoop ((List.range 10).map outcomes) none).2

/-- Reference description (for the amended claim C1): the first successful
outcome in a list, if any. -/
def firstOk : List AcqResult → Option SurfaceTex
  | [] => none
  | .ok t :: _ => some t
  | .err _ :: rest => firstOk rest

/-- Reference description (for the amended claim C1): the index of the first
successful outcome in a list, if any. -/
def firstOkIdx : List AcqResult → Option Nat
  | [] => none
  | .ok _ :: _ => some 0
  | .err _ :: rest => (firstOkIdx rest).map (· + 1)

/-- Reference description (for the amended claim C1): the last non-timeout
error in a list, if any. -/
def lastFatal : List AcqResult → Option SurfaceError
  | [] => none
  | o :: rest =>
    match lastFatal rest with
    | some e => some e
    | none =>
      match o with
      | .ok _ => none
      | .err e => if e = SurfaceError.timeout then none else some e

theorem acquireLoop_fst (l : List AcqResult) : ∀ r : Option AcqResult,
    (acquireLoop l r).1 =
      match firstOk l with
      | some t => some (.ok t)
      | none =>
        match lastFatal l with
        | some e => some (.err e)
        | none => r := by
  induction l with
  | nil => intro r; rfl
  | cons o rest ih =>
    intro r
    cases o with
    | ok t => simp [acquireLoop, firstOk]
    | err e =>
      by_cases he : e = SurfaceError.timeout
      · subst he
        simp only [acquireLoop, if_pos rfl, firstOk, lastFatal, ih r]
        cases firstOk rest <;> cases h : lastFatal rest <;> simp [h]
      · simp only [acquireLoop, if_neg he, firstOk, lastFatal,
          ih (some (.err e))]
        cases firstOk rest <;> cases h : lastFatal rest <;> simp [h, he]

theorem acquireLoop_snd (l : List AcqResult) : ∀ r : Option AcqResult,
    (acquireLoop l r).2 =
      match firstOkIdx l with
      | some k => k + 1
      | none => l.length := by
  induction l with
  | nil => intro r; rfl
  | cons o rest ih =>
    intro r
    cases o with
    | ok t => simp [acquireLoop, firstOkIdx]
    | err e =>
      by_cases he : e = SurfaceError.timeout
      · subst he
        simp only [acquireLoop, if_pos rfl, firstOkIdx, ih r]
        cases h : firstOkIdx rest <;> simp [h, List.length_cons]
      · simp only [acquireLoop, if_neg he, firstOkIdx, ih (some (.err e))]
        cases h : firstOkIdx rest <;> simp [h, List.length_cons]

/-- Claim C1 counterexample: an outcome source whose first attempt fails with
the fatal error `Lost` and whose second attempt succeeds.  The retry loop in
`thread_loop` does not stop at the fatal error: a second native attempt is
made after it, and the forwarded result is the success of attempt 2, not the
fatal error of attempt 1 — contradicting "a fatal (non-timeout) surface error
encountered on any attempt is returned untouched to the caller, with no
further native acquisition attempts made after it". -/
theorem acquire_fatal_not_final_counterexample :
    threadResult (fun i => if i = 0 then .err .lost else .ok 0) = .ok 0
    ∧ threadAttempts (fun i => if i = 0 then .err .lost else .ok 0) = 2
    ∧ threadResult (fun i => if i = 0 then .err .lost else .ok 0)
        ≠ .err .lost := by
  refine ⟨by decide, by decide, by decide⟩

/-- Claim C1 (amended): the retry loop breaks only on success; a fatal
(non-timeout) error is recorded but further native attempts continue.  The
forwarded result is the first success among the 10 attempts if one exists,
otherwise the last fatal error encountered (untouched), otherwise a timeout
error; the number of native attempts is the index of the first success plus
one, or 10 when no attempt succeeds. -/
theorem acquire_retry_loop_spec (outcomes : Nat → AcqResult) :
    threadResult outcomes =
      (match firstOk ((List.range 10).map outcomes) with
       | some t => .ok t
       | none =>
         match lastFatal ((List.range 10).map outcomes) with
         | some e => .err e
         | none => .err SurfaceError.timeout)
    ∧ threadAttempts outcomes =
      (match firstOkIdx ((List.range 10).map outcomes) with
       | some k => k + 1
       | none => 10) := by
  constructor
  · unfold threadResult
    rw [acquireLoop_fst]
    cases firstOk ((List.range 10).map outcomes) <;>
      cases h : lastFatal ((List.range 10).map outcomes) <;> simp [h]
  · unfold threadAttempts
    rw [acquireLoop_snd]
    cases firstOkIdx ((List.range 10).map outcomes) <;> simp

/-- Claim C4: a source timing out on the first 9 attempts and succeeding on
the 10th yields success after exactly 10 native attempts; a source timing out
on all attempts yields the typed timeout error after exactly 10 native
attempts — no 11th attempt is made in either case. -/
theorem acquire_timeout_retry_bound (t : SurfaceTex) :
    threadResult (fun i => if i < 9 then .err .timeout else .ok t) = .ok t
    ∧ threadAttempts (fun i => if i < 9 then .err .timeout else .ok t) = 10
    ∧ threadResult (fun _ => .err .timeout) = .err .timeout
    ∧ threadAttempts (fun _ => .err .timeout) = 10 := by
  refine ⟨rfl, rfl, rfl, rfl⟩

/-- Panic-or-value: embedding of a Rust computation that may terminate the
process with a panic (here always via `unwrap` or a failed `assert!`). -/
inductive PanicOr (α : Type)
  | panicked (msg : String)
  | ok (a : α)
  deriving DecidableEq

/-- Embedding of `AcquireThread::acquire` (acquire.rs lines 24-27): sends the
surface on the request channel and awaits the response, calling `unwrap` on
both channel results.  `sendOk` is whether `surface_sender.send` succeeded
(it fails exactly when the acquisition thread has terminated, dropping its
receiver); `response` is what `frame_reciever.recv_async` yields, `none`
standing for a disconnected, empty channel. -/
def AcquireThread.acquire (sendOk : Bool) (response : Option AcqResult) :
    PanicOr AcqResult :=
  if sendOk then
    match response with
    | some r => .ok r
    | none => .panicked "called Result::unwrap on an Err value"
  else .panicked "called Result::unwrap on an Err value"

/-- Claim C10: when the background acquisition thread has terminated and its
channels are disconnected (the send fails, or the response channel yields
nothing), `AcquireThread::acquire` panics via `unwrap` instead of returning a
typed error value. -/
theorem acquire_panics_on_disconnect (sendOk : Bool)
    (response : Option AcqResult)
    (h : sendOk = false ∨ response = none) :
    AcquireThread.acquire sendOk response =
      .panicked "called Result::unwrap on an Err value" := by
  cases h with
  | inl h => simp [AcquireThread.acquire, h]
  | inr h => cases sendOk <;> simp [AcquireThread.acquire, h]

/-- Witness for C10: at the concrete disconnected input the acquire call
panics. -/
theorem acquire_panics_on_disconnect_witness :
    AcquireThread.acquire false (some (.ok 0)) =
      .panicked "called Result::unwrap on an Err value" :=
  acquire_panics_on_disconnect false (some (.ok 0)) (Or.inl rfl)

/-! ## Output target (output.rs) -/

/-- Opaque handle standing for a `wgpu::TextureView`. -/
abbrev TextureView := Nat

/-- Opaque handle standing for an `Arc<Surface>`. -/
abbrev SurfaceId := Nat

/-- Embedding of the `OutputFrame` sum type (output.rs lines 6-18): an
unacquired surface, an acquired surface owning a live texture and its view,
or an arbitrary external texture view. -/
inductive OutputFrame
  | surface (s : SurfaceId)
  | surfaceAcquired (view : TextureView) (surfaceTex : SurfaceTex)
  | view (v : TextureView)
  deriving DecidableEq

/-- Embedding of `surface_tex.texture.create_view(&TextureViewDescriptor::default())`
(output.rs line 25): the default view derived from an acquired surface
texture, one view per texture. -/
def createView (surfaceTex : SurfaceTex) : TextureView := surfaceTex

/-- Embedding of the `Result<(), SurfaceError>` returned by
`OutputFrame::acquire`. -/
inductive AcquireUnit
  | ok
  | err (e : SurfaceError)
  deriving DecidableEq

/-- Embedding of one `OutputFrame::acquire` call (output.rs lines 21-31).
`response` is the result the acquisition thread returns if it is consulted.
Returns the `Result` the call yields, the frame afterwards (the method takes
`&mut self`), and the number of acquisition-thread calls made: from the
`Surface` state the thread is called once and, on success, the frame becomes
`SurfaceAcquired` with the freshly created view, while the `?` operator
propagates an error before `*self` is reassigned; from any other state the
body is skipped and `Ok(())` is returned. -/
def OutputFrame.acquire (f : OutputFrame) (response : AcqResult) :
    AcquireUnit × OutputFrame × Nat :=
  match f with
  | .surface s =>
    match response with
    | .ok tex => (.ok, .surfaceAcquired (createView tex) tex, 1)
    | .err e => (.err e, .surface s, 1)
  | f => (.ok, f, 0)

/-- Embedding of `OutputFrame::as_view` (output.rs lines 33-39). -/
def OutputFrame.asView : OutputFrame → Option TextureView
  | .surface _ => none
  | .surfaceAcquired v _ => some v
  | .view v => some v

/-- Embedding of `OutputFrame::present` (output.rs lines 41-48) as the list
of surface textures on which `SurfaceTexture::present` is invoked: exactly
one from the `SurfaceAcquired` state, none otherwise. -/
def OutputFrame.present : OutputFrame → List SurfaceTex
  | .surfaceAcquired _ tex => [tex]
  | _ => []

/-- Dropping an `OutputFrame` without presenting, as the list of surface
textures presented while doing so: `OutputFrame` has no `Drop`
implementation in output.rs, so dropping only releases the fields and calls
`SurfaceTexture::present` on nothing. -/
def OutputFrame.dropPresents : OutputFrame → List SurfaceTex := fun _ => []

/-- Claim C6: calling `acquire` on an already-`SurfaceAcquired` or `View`
target is idempotent — it returns success, leaves the state unchanged, makes
no acquisition-thread call, and `as_view` yields the same view before and
after the call. -/
theorem outputFrame_acquire_idempotent (v t w : Nat) (response : AcqResult) :
    (OutputFrame.surfaceAcquired v t).acquire response =
      (.ok, .surfaceAcquired v t, 0)
    ∧ (OutputFrame.view w).acquire response = (.ok, .view w, 0)
    ∧ ((OutputFrame.surfaceAcquired v t).acquire response).2.1.asView =
      (OutputFrame.surfaceAcquired v t).asView
    ∧ ((OutputFrame.view w).acquire response).2.1.asView =
      (OutputFrame.view w).asView := by
  refine ⟨rfl, rfl, rfl, rfl⟩

/-- Claim C7: `present` hands the image to the surface exactly once from the
`SurfaceAcquired` state and is a no-op from the `Surface` and `View` states;
dropping an acquired target without presenting performs no presentation. -/
theorem outputFrame_present_once (v t s w : Nat) :
    (OutputFrame.surfaceAcquired v t).present = [t]
    ∧ (OutputFrame.surface s).present = []
    ∧ (OutputFrame.view w).present = []
    ∧ (OutputFrame.surfaceAcquired v t).dropPresents = [] := by
  refine ⟨rfl, rfl, rfl, rfl⟩

/-- Claim C9: when the acquisition call inside `OutputFrame::acquire` fails,
the error is propagated unchanged, the frame stays in its unacquired
`Surface` state, and a subsequent `acquire` call consults the acquisition
thread again. -/
theorem outputFrame_acquire_error_keeps_state (s : Nat)
    (e : SurfaceError) (response : AcqResult) :
    (OutputFrame.surface s).acquire (.err e) = (.err e, .surface s, 1)
    ∧ (((OutputFrame.surface s).acquire (.err e)).2.1.acquire response).2.2
        = 1 := by
  refine ⟨rfl, ?_⟩
  cases response <;> rfl

/-! ## Instruction applier (render.rs lines 22-263)

Handles, mesh data, material data, changes, transforms and camera payloads
are opaque to the drain and embedded as natural numbers.  The renderer's
global options and the managers live outside src/ and are modelled from the
spec where noted. -/

/-- Modelled from the spec: `RendererOptions` lives outside src/.  The drain
reads `options.aspect_ratio()` (render.rs line 181) and `options.ambient`
(render.rs lines 293 and 382); both are embedded as plain fields. -/
structure Options where
  aspect : Nat
  ambient : Nat
  deriving DecidableEq

/-- Camera state as the arguments of the last `Camera::set_data(data, aspect)`
call; `Camera` itself lives outside src/ and is modelled from the spec
("set camera data" is one pool mutation), recording exactly what the calls in
render.rs pass it. -/
structure CameraState where
  data : Nat
  aspect : Option Nat
  deriving DecidableEq

/-- Texture payload carried by `AddTexture2D` / `AddTextureCube`. -/
structure TextureData where
  width : Nat
  height : Nat
  mipLevels : Nat
  format : Nat
  data : Nat
  deriving DecidableEq

/-- A GPU texture as produced by `create_texture_with_data` (render.rs lines
69-81 and 101-113): the descriptor fields the drain fills in. -/
structure UploadedTexture where
  width : Nat
  height : Nat
  depth : Nat
  mipLevelCount : Nat
  format : Nat
  data : Nat
  deriving DecidableEq

/-- A texture view as created in the drain: the underlying texture plus
whether the view uses the cube dimension (render.rs lines 85 and 117-126). -/
structure TexView where
  tex : UploadedTexture
  cubeDimension : Bool
  deriving DecidableEq

/-- A texture-manager entry: the view and format passed to `fill`. -/
structure TexEntry where
  view : TexView
  format : Option Nat
  deriving DecidableEq

/-- A material-manager entry: the filled material plus the changes applied by
`update_from_changes`, in order.  The manager lives outside src/; modelled
from the spec ("add/change/remove material" are single mutations). -/
structure MaterialEntry where
  material : Nat
  changes : List Nat
  deriving DecidableEq

/-- An object-manager entry: the filled object and the last transform set by
`set_object_transform`, if any.  Modelled from the spec ("add/remove object;
set object transform"). -/
structure ObjectEntry where
  object : Nat
  transform : Option Nat
  deriving DecidableEq

/-- Payload of `ChangeDirectionalLight`: each field optional, as in the
`change.direction` test of render.rs line 168. -/
structure LightChange where
  direction : Option Nat
  intensity : Option Nat
  deriving DecidableEq

/-- Payload of `AddDirectionalLight`. -/
structure Light where
  direction : Nat
  intensity : Nat
  deriving DecidableEq

/-- Embedding of `CameraProjection::from_orthographic_direction` as an opaque
encoding of the resulting camera payload. -/
def orthoFromDirection (d : Nat) : Nat := d

/-- A directional-light-manager entry: the light value (`value.inner`) and
its shadow camera (`value.camera`), per render.rs lines 166-176. -/
structure LightEntry where
  inner : Light
  camera : CameraState
  deriving DecidableEq

/-- Embedding of the `Instruction` enum as matched by the drain
(render.rs lines 53-189). -/
inductive Instruction
  | addMesh (handle : Nat) (mesh : Nat)
  | removeMesh (handle : Nat)
  | addTexture2D (handle : Nat) (texture : TextureData)
  | removeTexture2D (handle : Nat)
  | addTextureCube (handle : Nat) (texture : TextureData)
  | removeTextureCube (handle : Nat)
  | addMaterial (handle : Nat) (material : Nat)
  | changeMaterial (handle : Nat) (change : Nat)
  | removeMaterial (handle : Nat)
  | addObject (handle : Nat) (object : Nat)
  | setObjectTransform (handle : Nat) (transform : Nat)
  | removeObject (handle : Nat)
  | addDirectionalLight (handle : Nat) (light : Light)
  | changeDirectionalLight (handle : Nat) (change : LightChange)
  | removeDirectionalLight (handle : Nat)
  | setOptions (options : Options)
  | setCameraData (data : Nat)
  | setBackgroundTexture (handle : Nat)
  | clearBackgroundTexture
  deriving DecidableEq

/-- A resource pool as a handle-keyed association list.  Modelled from the
spec: pools are handle-to-value maps with handle uniqueness guaranteed
externally; `fill` inserts under a fresh handle. -/
def poolFill {α : Type} (pool : List (Nat × α)) (handle : Nat) (v : α) :
    List (Nat × α) :=
  (handle, v) :: pool

/-- Modelled from the spec: `remove` deletes the entry under a handle. -/
def poolRemove {α : Type} (pool : List (Nat × α)) (handle : Nat) :
    List (Nat × α) :=
  pool.filter fun p => p.1 ≠ handle

/-- Modelled from the spec: a change instruction updates the entry under its
handle in place. -/
def poolUpdate {α : Type} (pool : List (Nat × α)) (handle : Nat) (f : α → α) :
    List (Nat × α) :=
  pool.map fun p => if p.1 = handle then (p.1, f p.2) else p

/-- The state of all resource pools the drain mutates.  The renderer's
options cell (`renderer.options`) is kept separately, since the drain never
writes it directly. -/
structure PoolState where
  meshes : List (Nat × Nat)
  textures2d : List (Nat × TexEntry)
  texturesCube : List (Nat × TexEntry)
  materials : List (Nat × MaterialEntry)
  objects : List (Nat × ObjectEntry)
  lights : List (Nat × LightEntry)
  camera : CameraState
  backgroundTexture : Option Nat
  deriving DecidableEq

/-- The texture uploaded for `AddTexture2D` (render.rs lines 61-81):
depth 1. -/
def uploaded2D (t : TextureData) : UploadedTexture :=
  { width := t.width, height := t.height, depth := 1,
    mipLevelCount := t.mipLevels, format := t.format, data := t.data }

/-- The texture uploaded for `AddTextureCube` (render.rs lines 93-113):
depth 6, one layer per cube face. -/
def uploadedCube (t : TextureData) : UploadedTexture :=
  { width := t.width, height := t.height, depth := 6,
    mipLevelCount := t.mipLevels, format := t.format, data := t.data }

/-- The 2D texture-manager entry filled by the drain (render.rs lines
83-87): default view, format recorded. -/
def entry2D (t : TextureData) : TexEntry :=
  { view := { tex := uploaded2D t, cubeDimension := false },
    format := some t.format }

/-- The cube texture-manager entry filled by the drain (render.rs lines
115-128): cube-dimension view, format recorded. -/
def entryCube (t : TextureData) : TexEntry :=
  { view := { tex := uploadedCube t, cubeDimension := true },
    format := some t.format }

/-- One arm of the instruction drain (render.rs lines 52-190).  `g` is the
options read guard taken before the drain (line 50): `SetCameraData` uses its
aspect ratio, regardless of any staged options.  Returns the mutated pools
and, for `SetOptions`, the payload assigned to the `new_options` staging
variable.  The mip-level assertions of lines 67 and 99 panic when violated. -/
def applyInstruction (g : Options) (s : PoolState) :
    Instruction → PanicOr (PoolState × Option Options)
  | .addMesh h m => .ok ({ s with meshes := poolFill s.meshes h m }, none)
  | .removeMesh h => .ok ({ s with meshes := poolRemove s.meshes h }, none)
  | .addTexture2D h t =>
    if 0 < t.mipLevels then
      .ok ({ s with textures2d := poolFill s.textures2d h (entry2D t) }, none)
    else .panicked "Mipmap levels must be greater than 0"
  | .removeTexture2D h =>
    .ok ({ s with textures2d := poolRemove s.textures2d h }, none)
  | .addTextureCube h t =>
    if 0 < t.mipLevels then
      .ok ({ s with texturesCube := poolFill s.texturesCube h (entryCube t) },
        none)
    else .panicked "Mipmap levels must be greater than 0"
  | .removeTextureCube h =>
    .ok ({ s with texturesCube := poolRemove s.texturesCube h }, none)
  | .addMaterial h m =>
    let e : MaterialEntry := { material := m, changes := [] }
    .ok ({ s with materials := poolFill s.materials h e }, none)
  | .changeMaterial h c =>
    .ok ({ s with materials := poolUpdate s.materials h fun e =>
      { e with changes := e.changes ++ [c] } }, none)
  | .removeMaterial h =>
    .ok ({ s with materials := poolRemove s.materials h }, none)
  | .addObject h o =>
    let e : ObjectEntry := { object := o, transform := none }
    .ok ({ s with objects := poolFill s.objects h e }, none)
  | .setObjectTransform h t =>
    .ok ({ s with objects := poolUpdate s.objects h fun e =>
      { e with transform := some t } }, none)
  | .removeObject h =>
    .ok ({ s with objects := poolRemove s.objects h }, none)
  | .addDirectionalLight h l =>
    let e : LightEntry :=
      { inner := l,
        camera := { data := orthoFromDirection l.direction, aspect := none } }
    .ok ({ s with lights := poolFill s.lights h e }, none)
  | .changeDirectionalLight h c =>
    .ok ({ s with lights := poolUpdate s.lights h fun e =>
      { inner :=
          { direction := c.direction.getD e.inner.direction,
            intensity := c.intensity.getD e.inner.intensity },
        camera :=
          match c.direction with
          | some d => { data := orthoFromDirection d, aspect := none }
          | none => e.camera } }, none)
  | .removeDirectionalLight h =>
    .ok ({ s with lights := poolRemove s.lights h }, none)
  | .setOptions o => .ok (s, some o)
  | .setCameraData d =>
    .ok ({ s with camera := { data := d, aspect := some g.aspect } }, none)
  | .setBackgroundTexture h => .ok ({ s with backgroundTexture := some h }, none)
  | .clearBackgroundTexture => .ok ({ s with backgroundTexture := none }, none)

/-- The drain loop (render.rs lines 52-190): fold the batch in FIFO order,
threading the pools and the `new_options` staging variable, stopping at the
first panic. -/
def drainInstructions (g : Options) (s : PoolState) (n : Option Options) :
    List Instruction → PanicOr (PoolState × Option Options)
  | [] => .ok (s, n)
  | i :: rest =>
    match applyInstruction g s i with
    | .panicked m => .panicked m
    | .ok (s', delta) =>
      drainInstructions g s'
        (match delta with | some o => some o | none => n) rest

/-- One whole drain phase of the render loop: swap the batch, drain it with
the pre-batch options as the read guard, then apply the staged options
(render.rs lines 257-263; `GlobalResources::update` lives outside src/ and
is modelled from the spec: "replace global options").  Returns the pools and
the renderer's options afterwards. -/
def runBatch (s : PoolState) (opts : Options) (batch : List Instruction) :
    PanicOr (PoolState × Options) :=
  match drainInstructions opts s none batch with
  | .panicked m => .panicked m
  | .ok (s', n') => .ok (s', n'.getD opts)

/-- Applying instructions strictly one at a time in the same order: each
instruction is drained as its own single-element batch. -/
def runSequential (s : PoolState) (opts : Options) :
    List Instruction → PanicOr (PoolState × Options)
  | [] => .ok (s, opts)
  | i :: rest =>
    match runBatch s opts [i] with
    | .panicked m => .panicked m
    | .ok (s', opts') => runSequential s' opts' rest

/-- The primary camera's per-view uniform for the frame (render.rs lines
381-382): built from `global_resources.camera` and `options.ambient` after
the drain and the staged-options application have both completed. -/
structure ViewUniform where
  camera : CameraState
  ambient : Nat
  deriving DecidableEq

/-- The uniform uploaded for the primary camera this frame: the camera and
ambient term read after `runBatch` finishes. -/
def frameCameraUniform (s : PoolState) (opts : Options)
    (batch : List Instruction) : PanicOr ViewUniform :=
  match runBatch s opts batch with
  | .panicked m => .panicked m
  | .ok (s', opts') => .ok { camera := s'.camera, ambient := opts'.ambient }

/-- Whether an instruction, when drained, stages options whose aspect ratio
differs from `a`. -/
def Instruction.aspectPreserving (a : Nat) : Instruction → Bool
  | .setOptions o => o.aspect = a
  | _ => true

/-- Changing the guard does not change a drain step, as long as both guards
agree on the aspect ratio — the only part of the guard the drain reads. -/
theorem applyInstruction_guard_eq (g₁ g₂ : Options) (s : PoolState)
    (i : Instruction) (h : g₁.aspect = g₂.aspect) :
    applyInstruction g₁ s i = applyInstruction g₂ s i := by
  cases i <;> simp [applyInstruction, h]

/-- A drain step stages options only for `SetOptions`, and stages exactly its
payload. -/
theorem applyInstruction_stages (g : Options) (s : PoolState)
    (i : Instruction) (s' : PoolState) (o : Options)
    (h : applyInstruction g s i = .ok (s', some o)) :
    i = .setOptions o := by
  cases i <;> simp only [applyInstruction] at h <;>
    first
    | (split at h <;> simp_all)
    | simp_all

/-- A single-instruction batch: one drain step followed by the staged-options
application. -/
theorem runBatch_singleton (s : PoolState) (opts : Options)
    (i : Instruction) :
    runBatch s opts [i] =
      match applyInstruction opts s i with
      | .panicked m => .panicked m
      | .ok (s', delta) => .ok (s', delta.getD opts) := by
  unfold runBatch drainInstructions
  cases h : applyInstruction opts s i with
  | panicked m => rfl
  | ok p =>
    obtain ⟨s', delta⟩ := p
    cases delta <;> rfl

/-- Draining from intermediate state `(s, n)` and then applying the staged
options equals applying the staged options now and continuing one
instruction at a time, provided every `SetOptions` in sight keeps the aspect
ratio of the pre-batch guard. -/
theorem drain_stage_decomposition (batch : List Instruction) :
    ∀ (s : PoolState) (opts : Options) (n : Option Options),
    (∀ i ∈ batch, Instruction.aspectPreserving opts.aspect i = true) →
    (∀ o : Options, n = some o → o.aspect = opts.aspect) →
    (match drainInstructions opts s n batch with
     | .panicked m => .panicked m
     | .ok (s', n') => .ok (s', n'.getD opts)) =
      runSequential s (n.getD opts) batch := by
  induction batch with
  | nil => intro s opts n _ _; rfl
  | cons i rest ih =>
    intro s opts n hbatch hn
    have hguard : (n.getD opts).aspect = opts.aspect := by
      cases n with
      | none => rfl
      | some o => exact hn o rfl
    have happly :
        applyInstruction (n.getD opts) s i = applyInstruction opts s i :=
      applyInstruction_guard_eq _ _ s i hguard
    rw [runSequential, runBatch_singleton, happly, drainInstructions]
    cases h : applyInstruction opts s i with
    | panicked m => rfl
    | ok p =>
      obtain ⟨s', delta⟩ := p
      have hrest : ∀ j ∈ rest,
          Instruction.aspectPreserving opts.aspect j = true :=
        fun j hj => hbatch j (List.mem_cons_of_mem i hj)
      cases delta with
      | none =>
        simpa using ih s' opts n hrest hn
      | some o =>
        have hio : i = .setOptions o := applyInstruction_stages _ _ _ _ _ h
        have ho : o.aspect = opts.aspect := by
          have := hbatch i (List.mem_cons_self i rest)
          rw [hio] at this
          simpa [Instruction.aspectPreserving] using this
        have := ih s' opts (some o) hrest (by
          intro o' ho'
          cases ho'
          exact ho)
        simpa using this

/-- Claim C3 counterexample: a batch putting `SetOptions` (changing the
aspect ratio from 1 to 2) before `SetCameraData`.  The whole-batch drain
sets the camera with the stale pre-batch aspect ratio, while one-at-a-time
application sets it with the already-updated aspect ratio, so the resulting
pool states differ — refuting the claimed equivalence. -/
theorem instruction_fifo_counterexample :
    runBatch
      { meshes := [], textures2d := [], texturesCube := [], materials := [],
        objects := [], lights := [],
        camera := { data := 0, aspect := none }, backgroundTexture := none }
      { aspect := 1, ambient := 0 }
      [Instruction.setOptions { aspect := 2, ambient := 0 },
       Instruction.setCameraData 5] ≠
    runSequential
      { meshes := [], textures2d := [], texturesCube := [], materials := [],
        objects := [], lights := [],
        camera := { data := 0, aspect := none }, backgroundTexture := none }
      { aspect := 1, ambient := 0 }
      [Instruction.setOptions { aspect := 2, ambient := 0 },
       Instruction.setCameraData 5] := by
  decide

/-- Claim C3 (amended): draining a whole batch in FIFO order and then
applying the staged options yields the same pools and options as applying
the same instructions strictly one at a time in the same order, provided no
`SetOptions` in the batch changes the aspect ratio; without that proviso a
`SetCameraData` later in the batch reads the stale pre-batch aspect ratio in
batch mode. -/
theorem instruction_fifo_equivalence (s : PoolState) (opts : Options)
    (batch : List Instruction)
    (h : ∀ i ∈ batch, Instruction.aspectPreserving opts.aspect i = true) :
    runBatch s opts batch = runSequential s opts batch := by
  have := drain_stage_decomposition batch s opts none h (by intro o ho; cases ho)
  simpa [runBatch] using this

/-- Witness for the amended C3 at a concrete batch whose `SetOptions` keeps
the aspect ratio. -/
theorem instruction_fifo_equivalence_witness :
    (∀ i ∈ [Instruction.setOptions { aspect := 1, ambient := 9 },
            Instruction.setCameraData 5, Instruction.addMesh 0 3],
        Instruction.aspectPreserving 1 i = true)
    ∧ runBatch
        { meshes := [], textures2d := [], texturesCube := [], materials := [],
          objects := [], lights := [],
          camera := { data := 0, aspect := none }, backgroundTexture := none }
        { aspect := 1, ambient := 0 }
        [Instruction.setOptions { aspect := 1, ambient := 9 },
         Instruction.setCameraData 5, Instruction.addMesh 0 3] =
      runSequential
        { meshes := [], textures2d := [], texturesCube := [], materials := [],
          objects := [], lights := [],
          camera := { data := 0, aspect := none }, backgroundTexture := none }
        { aspect := 1, ambient := 0 }
        [Instruction.setOptions { aspect := 1, ambient := 9 },
         Instruction.setCameraData 5, Instruction.addMesh 0 3] :=
  ⟨by decide, instruction_fifo_equivalence _ _ _ (by decide)⟩

/-- Whether a drain step hits a mip-level assertion. -/
def Instruction.panics : Instruction → Bool
  | .addTexture2D _ t => t.mipLevels = 0
  | .addTextureCube _ t => t.mipLevels = 0
  | _ => false

/-- Whether an instruction is `SetOptions`. -/
def Instruction.isSetOptions : Instruction → Bool
  | .setOptions _ => true
  | _ => false

/-- Whether an instruction is `SetCameraData`. -/
def Instruction.isSetCameraData : Instruction → Bool
  | .setCameraData _ => true
  | _ => false

/-- Draining a concatenation drains the first part, then the second from the
state the first left behind. -/
theorem drainInstructions_append (l₁ l₂ : List Instruction) :
    ∀ (g : Options) (s : PoolState) (n : Option Options),
    drainInstructions g s n (l₁ ++ l₂) =
      match drainInstructions g s n l₁ with
      | .panicked m => .panicked m
      | .ok (s', n') => drainInstructions g s' n' l₂ := by
  induction l₁ with
  | nil => intro g s n; rfl
  | cons i rest ih =>
    intro g s n
    rw [List.cons_append, drainInstructions, drainInstructions]
    cases applyInstruction g s i with
    | panicked m => rfl
    | ok p => exact ih g p.1 _

/-- A non-panicking drain step always succeeds, and stages nothing unless it
is `SetOptions`. -/
theorem applyInstruction_no_assertion (g : Options) (s : PoolState)
    (i : Instruction) (hp : Instruction.panics i = false) :
    ∃ s' delta, applyInstruction g s i = .ok (s', delta) := by
  cases i <;>
    simp_all [applyInstruction, Instruction.panics, Nat.pos_of_ne_zero]

/-- Unfolding a drain over a concatenation whose first part succeeds. -/
theorem drainInstructions_append_ok (l₁ l₂ : List Instruction) (g : Options)
    (s : PoolState) (n : Option Options) (s' : PoolState)
    (n' : Option Options)
    (h : drainInstructions g s n l₁ = .ok (s', n')) :
    drainInstructions g s n (l₁ ++ l₂) = drainInstructions g s' n' l₂ := by
  rw [drainInstructions_append l₁ l₂ g s n, h]

/-- Unfolding one successful drain step that stages nothing. -/
theorem drainInstructions_cons_none (g : Options) (s : PoolState)
    (n : Option Options) (i : Instruction) (rest : List Instruction)
    (s' : PoolState) (h : applyInstruction g s i = .ok (s', none)) :
    drainInstructions g s n (i :: rest) = drainInstructions g s' n rest := by
  simp only [drainInstructions, h]

/-- Unfolding one successful drain step that stages options. -/
theorem drainInstructions_cons_some (g : Options) (s : PoolState)
    (n : Option Options) (i : Instruction) (rest : List Instruction)
    (s' : PoolState) (o : Options)
    (h : applyInstruction g s i = .ok (s', some o)) :
    drainInstructions g s n (i :: rest) =
      drainInstructions g s' (some o) rest := by
  simp only [drainInstructions, h]

/-- A non-panicking drain of any batch succeeds. -/
theorem drain_no_assertion (l : List Instruction) :
    ∀ (g : Options) (s : PoolState) (n : Option Options),
    (∀ i ∈ l, Instruction.panics i = false) →
    ∃ s' n', drainInstructions g s n l = .ok (s', n') := by
  induction l with
  | nil => intro g s n _; exact ⟨s, n, rfl⟩
  | cons i rest ih =>
    intro g s n h
    obtain ⟨s₁, delta, h₁⟩ :=
      applyInstruction_no_assertion g s i (h i (List.mem_cons_self i rest))
    have hrest := fun j hj => h j (List.mem_cons_of_mem i hj)
    cases delta with
    | none =>
      obtain ⟨s', n', h₂⟩ := ih g s₁ n hrest
      exact ⟨s', n',
        by rw [drainInstructions_cons_none g s n i rest s₁ h₁]; exact h₂⟩
    | some o =>
      obtain ⟨s', n', h₂⟩ := ih g s₁ (some o) hrest
      exact ⟨s', n',
        by rw [drainInstructions_cons_some g s n i rest s₁ o h₁]; exact h₂⟩

/-- A drain step that is neither `SetOptions` nor panicking succeeds, stages
nothing, and, when it is not `SetCameraData` either, leaves the camera
untouched. -/
theorem applyInstruction_plain (g : Options) (s : PoolState)
    (i : Instruction) (hp : Instruction.panics i = false)
    (hso : Instruction.isSetOptions i = false) :
    ∃ s', applyInstruction g s i = .ok (s', none)
      ∧ (Instruction.isSetCameraData i = false → s'.camera = s.camera) := by
  cases i <;>
    simp_all [applyInstruction, Instruction.panics, Instruction.isSetOptions,
      Instruction.isSetCameraData, Nat.pos_of_ne_zero]

/-- Draining a batch with no `SetOptions` and no assertion failure succeeds,
keeps the staging variable as it was, and, when the batch also contains no
`SetCameraData`, keeps the camera as it was. -/
theorem drain_plain (l : List Instruction) :
    ∀ (g : Options) (s : PoolState) (n : Option Options),
    (∀ i ∈ l, Instruction.panics i = false) →
    (∀ i ∈ l, Instruction.isSetOptions i = false) →
    ∃ s', drainInstructions g s n l = .ok (s', n)
      ∧ ((∀ i ∈ l, Instruction.isSetCameraData i = false) →
          s'.camera = s.camera) := by
  induction l with
  | nil => intro g s n _ _; exact ⟨s, rfl, fun _ => rfl⟩
  | cons i rest ih =>
    intro g s n hp hso
    obtain ⟨s₁, h₁, hcam₁⟩ :=
      applyInstruction_plain g s i (hp i (List.mem_cons_self i rest))
        (hso i (List.mem_cons_self i rest))
    obtain ⟨s', h₂, hcam₂⟩ := ih g s₁ n
      (fun j hj => hp j (List.mem_cons_of_mem i hj))
      (fun j hj => hso j (List.mem_cons_of_mem i hj))
    refine ⟨s', by rw [drainInstructions, h₁]; exact h₂, fun hsc => ?_⟩
    rw [hcam₂ (fun j hj => hsc j (List.mem_cons_of_mem i hj)),
      hcam₁ (hsc i (List.mem_cons_self i rest))]

/-- Claim C5: in a batch with `SetOptions o` followed (after any
`SetOptions`-free stretch) by a final `SetCameraData d`, the drain only
stages the option change — the drain output carries it in `new_options`,
with the camera set from `d` under the still-current pre-batch aspect
ratio — and the staged change is applied before the camera data is consumed
for the frame's per-view uniform: the uniform pairs the camera set from `d`
with the ambient term of the new options `o`. -/
theorem setOptions_staged_before_uniform (s : PoolState) (opts : Options)
    (p q r : List Instruction) (o : Options) (d : Nat)
    (hpp : ∀ i ∈ p, Instruction.panics i = false)
    (hqp : ∀ i ∈ q, Instruction.panics i = false)
    (hqo : ∀ i ∈ q, Instruction.isSetOptions i = false)
    (hrp : ∀ i ∈ r, Instruction.panics i = false)
    (hro : ∀ i ∈ r, Instruction.isSetOptions i = false)
    (hrc : ∀ i ∈ r, Instruction.isSetCameraData i = false) :
    (∃ s', drainInstructions opts s none
        (p ++ Instruction.setOptions o ::
          (q ++ Instruction.setCameraData d :: r)) = .ok (s', some o)
      ∧ s'.camera = { data := d, aspect := some opts.aspect })
    ∧ frameCameraUniform s opts
        (p ++ Instruction.setOptions o ::
          (q ++ Instruction.setCameraData d :: r)) =
      .ok { camera := { data := d, aspect := some opts.aspect },
            ambient := o.ambient } := by
  obtain ⟨s₁, n₁, hdrainp⟩ := drain_no_assertion p opts s none hpp
  obtain ⟨s₂, hdrainq, -⟩ := drain_plain q opts s₁ (some o) hqp hqo
  obtain ⟨s₃, hdrainr, hcam⟩ := drain_plain r opts
    { s₂ with camera := { data := d, aspect := some opts.aspect } }
    (some o) hrp hro
  have hcam₃ : s₃.camera = { data := d, aspect := some opts.aspect } :=
    hcam hrc
  have e₁ : drainInstructions opts s none
      (p ++ Instruction.setOptions o ::
        (q ++ Instruction.setCameraData d :: r)) =
      drainInstructions opts s₁ n₁
        (Instruction.setOptions o ::
          (q ++ Instruction.setCameraData d :: r)) :=
    drainInstructions_append_ok _ _ _ _ _ _ _ hdrainp
  have e₂ : drainInstructions opts s₁ n₁
      (Instruction.setOptions o ::
        (q ++ Instruction.setCameraData d :: r)) =
      drainInstructions opts s₁ (some o)
        (q ++ Instruction.setCameraData d :: r) :=
    drainInstructions_cons_some opts s₁ n₁ (Instruction.setOptions o)
      (q ++ Instruction.setCameraData d :: r) s₁ o rfl
  have e₃ : drainInstructions opts s₁ (some o)
      (q ++ Instruction.setCameraData d :: r) =
      drainInstructions opts s₂ (some o)
        (Instruction.setCameraData d :: r) :=
    drainInstructions_append_ok _ _ _ _ _ _ _ hdrainq
  have e₄ : drainInstructions opts s₂ (some o)
      (Instruction.setCameraData d :: r) =
      drainInstructions opts
        { s₂ with camera := { data := d, aspect := some opts.aspect } }
        (some o) r :=
    drainInstructions_cons_none opts s₂ (some o)
      (Instruction.setCameraData d) r
      { s₂ with camera := { data := d, aspect := some opts.aspect } } rfl
  have hdrain : drainInstructions opts s none
      (p ++ Instruction.setOptions o ::
        (q ++ Instruction.setCameraData d :: r)) = .ok (s₃, some o) :=
    e₁.trans (e₂.trans (e₃.trans (e₄.trans hdrainr)))
  refine ⟨⟨s₃, hdrain, hcam₃⟩, ?_⟩
  rw [frameCameraUniform, runBatch, hdrain]
  simp [hcam₃]

/-- Witness for C5 at a concrete batch. -/
theorem setOptions_staged_before_uniform_witness :
    ((∀ i ∈ [Instruction.addMesh 0 1], Instruction.panics i = false)
      ∧ (∀ i ∈ [Instruction.addObject 1 4], Instruction.panics i = false)
      ∧ (∀ i ∈ [Instruction.addObject 1 4],
          Instruction.isSetOptions i = false)
      ∧ (∀ i ∈ [Instruction.removeMesh 0], Instruction.panics i = false)
      ∧ (∀ i ∈ [Instruction.removeMesh 0],
          Instruction.isSetOptions i = false)
      ∧ (∀ i ∈ [Instruction.removeMesh 0],
          Instruction.isSetCameraData i = false))
    ∧ ((∃ s', drainInstructions { aspect := 1, ambient := 2 }
          { meshes := [], textures2d := [], texturesCube := [],
            materials := [], objects := [], lights := [],
            camera := { data := 0, aspect := none },
            backgroundTexture := none } none
          ([Instruction.addMesh 0 1] ++
            Instruction.setOptions { aspect := 3, ambient := 9 } ::
            ([Instruction.addObject 1 4] ++
              Instruction.setCameraData 5 :: [Instruction.removeMesh 0])) =
          .ok (s', some { aspect := 3, ambient := 9 })
        ∧ s'.camera = { data := 5, aspect := some 1 })
      ∧ frameCameraUniform
          { meshes := [], textures2d := [], texturesCube := [],
            materials := [], objects := [], lights := [],
            camera := { data := 0, aspect := none },
            backgroundTexture := none }
          { aspect := 1, ambient := 2 }
          ([Instruction.addMesh 0 1] ++
            Instruction.setOptions { aspect := 3, ambient := 9 } ::
            ([Instruction.addObject 1 4] ++
              Instruction.setCameraData 5 :: [Instruction.removeMesh 0])) =
        .ok { camera := { data := 5, aspect := some 1 }, ambient := 9 }) :=
  ⟨⟨by decide, by decide, by decide, by decide, by decide, by decide⟩,
    setOptions_staged_before_uniform _ _ _ _ _ _ _
      (by decide) (by decide) (by decide) (by decide) (by decide) (by decide)⟩

/-- Claim C8: for both `AddTexture2D` and `AddTextureCube`, a texture with
mip-level count 0 makes the drain hit the `assert!` and panic — a fatal
failure, not a typed error — while for mip-level count at least 1 the
assertion branch is not taken and the upload proceeds, filling the texture
pool. -/
theorem texture_mip_assertion (g : Options) (s : PoolState) (h : Nat)
    (t : TextureData) :
    (t.mipLevels = 0 →
      applyInstruction g s (.addTexture2D h t) =
        .panicked "Mipmap levels must be greater than 0"
      ∧ applyInstruction g s (.addTextureCube h t) =
        .panicked "Mipmap levels must be greater than 0")
    ∧ (0 < t.mipLevels →
      applyInstruction g s (.addTexture2D h t) =
        .ok ({ s with textures2d := poolFill s.textures2d h (entry2D t) },
          none)
      ∧ applyInstruction g s (.addTextureCube h t) =
        .ok ({ s with texturesCube := poolFill s.texturesCube h (entryCube t) },
          none)) := by
  constructor
  · intro hm
    constructor <;> simp [applyInstruction, hm]
  · intro hm
    constructor <;> simp [applyInstruction, hm]

/-- Witness for C8 at concrete zero-mip and one-mip textures. -/
theorem texture_mip_assertion_witness :
    (({ width := 1, height := 1, mipLevels := 0, format := 0, data := 0 } :
        TextureData).mipLevels = 0
      ∧ applyInstruction { aspect := 1, ambient := 0 }
          { meshes := [], textures2d := [], texturesCube := [],
            materials := [], objects := [], lights := [],
            camera := { data := 0, aspect := none },
            backgroundTexture := none }
          (.addTexture2D 0
            { width := 1, height := 1, mipLevels := 0, format := 0, data := 0 })
        = .panicked "Mipmap levels must be greater than 0")
    ∧ (0 < ({ width := 1, height := 1, mipLevels := 1, format := 0, data := 0 } :
        TextureData).mipLevels
      ∧ applyInstruction { aspect := 1, ambient := 0 }
          { meshes := [], textures2d := [], texturesCube := [],
            materials := [], objects := [], lights := [],
            camera := { data := 0, aspect := none },
            backgroundTexture := none }
          (.addTextureCube 0
            { width := 1, height := 1, mipLevels := 1, format := 0, data := 0 })
        = .ok
          ({ meshes := [], textures2d := [],
             texturesCube := poolFill [] 0 (entryCube
               { width := 1, height := 1, mipLevels := 1, format := 0,
                 data := 0 }),
             materials := [], objects := [], lights := [],
             camera := { data := 0, aspect := none },
             backgroundTexture := none }, none)) :=
  ⟨⟨rfl, ((texture_mip_assertion _ _ _ _).1 rfl).1⟩,
    ⟨by decide, ((texture_mip_assertion _ _ _ _).2 (by decide)).2⟩⟩

/-! ## Render-pass fan-out and submission order (render.rs lines 275-457) -/

/-- Embedding of `RenderPassRunRate`. -/
inductive RunRate
  | once
  | perShadow
  deriving DecidableEq

/-- An immutable render-pass descriptor from the render list: its identity
and run-rate tag. -/
structure RenderPass where
  id : Nat
  runRate : RunRate
  deriving DecidableEq

/-- The view a recording task renders into: a shadow-map layer of one light,
or the primary camera's output frame. -/
inductive ViewTarget
  | shadowLayer (light : Nat)
  | cameraFrame
  deriving DecidableEq

/-- One (view, pass) recording task spawned onto the worker pool. -/
structure RecordTask where
  view : ViewTarget
  passId : Nat
  deriving DecidableEq

/-- The order in which the render loop pushes recording tasks onto the
`FuturesOrdered` (render.rs lines 277-354 and 425-441): for each
shadow-casting light in iteration order one task per `PerShadow` pass in
declaration order, then one task per `Once` pass for the primary camera. -/
def enqueueOrder (lights : List Nat) (passes : List RenderPass) :
    List RecordTask :=
  (lights.flatMap fun l =>
    (passes.filter fun rp => rp.runRate == RunRate.perShadow).map fun rp =>
      RecordTask.mk (ViewTarget.shadowLayer l) rp.id)
  ++ ((passes.filter fun rp => rp.runRate == RunRate.once).map fun rp =>
      RecordTask.mk ViewTarget.cameraFrame rp.id)

/-- One round of a `FuturesOrdered` drain: pop every already-completed task
from the front of the queue, stopping at the first task still pending.
Returns the popped results and the remaining queue. -/
def popCompleted (done : List RecordTask) :
    List RecordTask → List RecordTask × List RecordTask
  | [] => ([], [])
  | t :: rest =>
    if t ∈ done then
      let pr := popCompleted done rest
      (t :: pr.1, pr.2)
    else ([], t :: rest)

/-- Simulation of draining a `FuturesOrdered` (render.rs lines 450-452):
worker tasks finish in the order given by `completions` — any order — but
`next()` yields each result only once every earlier-enqueued task has been
yielded, so results come out in enqueue order. -/
def drainOrdered (queue done : List RecordTask) :
    List RecordTask → List RecordTask
  | [] => (popCompleted done queue).1
  | c :: cs =>
    let pr := popCompleted (c :: done) queue
    pr.1 ++ drainOrdered pr.2 (c :: done) cs

theorem popCompleted_all (q done : List RecordTask)
    (h : ∀ t ∈ q, t ∈ done) : popCompleted done q = (q, []) := by
  induction q with
  | nil => rfl
  | cons t rest ih =>
    rw [popCompleted, if_pos (h t (List.mem_cons_self t rest)),
      ih (fun u hu => h u (List.mem_cons_of_mem t hu))]

theorem popCompleted_split (q done : List RecordTask) :
    q = (popCompleted done q).1 ++ (popCompleted done q).2 := by
  induction q with
  | nil => rfl
  | cons t rest ih =>
    rw [popCompleted]
    by_cases ht : t ∈ done
    · rw [if_pos ht]
      simpa using ih
    · rw [if_neg ht]
      simp

/-- When every enqueued task eventually completes, the ordered drain yields
exactly the queue, whatever the completion order. -/
theorem drainOrdered_complete (cs : List RecordTask) :
    ∀ (q done : List RecordTask),
    (∀ t ∈ q, t ∈ done ++ cs) → drainOrdered q done cs = q := by
  induction cs with
  | nil =>
    intro q done h
    rw [drainOrdered,
      popCompleted_all q done (fun t ht => by simpa using h t ht)]
  | cons c cs ih =>
    intro q done h
    rw [drainOrdered]
    have hsplit := popCompleted_split q (c :: done)
    have hmem : ∀ t ∈ (popCompleted (c :: done) q).2, t ∈ (c :: done) ++ cs := by
      intro t ht
      have htq : t ∈ q := by
        rw [hsplit]
        exact List.mem_append_right _ ht
      have := h t htq
      simp only [List.mem_append, List.mem_cons] at this ⊢
      tauto
    rw [ih _ _ hmem]
    exact hsplit.symm

/-- A submitted command buffer: the primary encoder's, or one recorded by a
(view, pass) task. -/
inductive CommandBuffer
  | primary
  | recorded (t : RecordTask)
  deriving DecidableEq

/-- The list submitted to the queue (render.rs lines 448-457):
`vec![encoder.finish()]` followed by every `FuturesOrdered` result in drain
order. -/
def submittedBuffers (lights : List Nat) (passes : List RenderPass)
    (completions : List RecordTask) : List CommandBuffer :=
  CommandBuffer.primary ::
    (drainOrdered (enqueueOrder lights passes) [] completions).map
      CommandBuffer.recorded

/-- Claim C2: whenever every recording task eventually completes, the
submitted list is exactly the primary encoder's buffer followed by one
buffer per (view, pass) task in enqueue order — for each shadow-casting
light in iteration order its `PerShadow` passes, then the primary camera's
`Once` passes — independent of the completion order. -/
theorem submission_order (lights : List Nat) (passes : List RenderPass)
    (completions : List RecordTask)
    (h : ∀ t ∈ enqueueOrder lights passes, t ∈ completions) :
    submittedBuffers lights passes completions =
      CommandBuffer.primary ::
        ((lights.flatMap fun l =>
            (passes.filter fun rp => rp.runRate == RunRate.perShadow).map
              fun rp => RecordTask.mk (ViewTarget.shadowLayer l) rp.id)
          ++ ((passes.filter fun rp => rp.runRate == RunRate.once).map
              fun rp => RecordTask.mk ViewTarget.cameraFrame rp.id)).map
          CommandBuffer.recorded := by
  unfold submittedBuffers
  rw [drainOrdered_complete completions (enqueueOrder lights passes) []
    (fun t ht => by simpa using h t ht)]
  rfl

/-- Witness for C2: two casters L1, L2, passes P1 (`Once`) and P2
(`PerShadow`), with workers completing in reverse order; the submission is
still primary, L1×P2, L2×P2, camera×P1. -/
theorem submission_order_witness :
    (∀ t ∈ enqueueOrder [1, 2]
        [RenderPass.mk 1 RunRate.once, RenderPass.mk 2 RunRate.perShadow],
      t ∈ [RecordTask.mk ViewTarget.cameraFrame 1,
           RecordTask.mk (ViewTarget.shadowLayer 2) 2,
           RecordTask.mk (ViewTarget.shadowLayer 1) 2])
    ∧ submittedBuffers [1, 2]
        [RenderPass.mk 1 RunRate.once, RenderPass.mk 2 RunRate.perShadow]
        [RecordTask.mk ViewTarget.cameraFrame 1,
         RecordTask.mk (ViewTarget.shadowLayer 2) 2,
         RecordTask.mk (ViewTarget.shadowLayer 1) 2] =
      CommandBuffer.primary ::
        (([1, 2].flatMap fun l =>
            (([RenderPass.mk 1 RunRate.once,
               RenderPass.mk 2 RunRate.perShadow].filter
              fun rp => rp.runRate == RunRate.perShadow).map
              fun rp => RecordTask.mk (ViewTarget.shadowLayer l) rp.id))
          ++ ((([RenderPass.mk 1 RunRate.once,
                RenderPass.mk 2 RunRate.perShadow].filter
              fun rp => rp.runRate == RunRate.once).map
              fun rp => RecordTask.mk ViewTarget.cameraFrame rp.id))).map
          CommandBuffer.recorded :=
  ⟨by decide, submission_order _ _ _ (by decide)⟩

end Rend3
